import Mathlib

/-!
Verification development for the 3dhub.io web service core
(source: webui main handlers in src/unnamed/part_000 and the
form-extraction helpers in src/common/userinput.go).

The development shallowly embeds the parts of the program that the
specification talks about: the MD5-based cache fingerprint of the
visualisation handler, the tabular query engine and its callers
(tableViewHandler, visData), the upload version step and the
object-id generation loop of uploadDataHandler.

Functions of this repository that live outside the provided source
slices (the common SQLite/Minio/cache helpers) are modelled from the
specification; each such definition carries a doc comment starting
with the words Modelled from the spec.
-/

set_option maxRecDepth 4096

/-! ## MD5 (Go crypto/md5 as called on line 1098/1102 of part_000)

A direct functional implementation of RFC 1321 over byte lists,
with 32-bit words represented as Nat reduced mod 2^32. -/

/-- 2^32, the word modulus of MD5. -/
def M32 : Nat := 4294967296

/-- Per-round addition constants of MD5 (RFC 1321), K[i] = floor(2^32 * abs (sin (i+1))). -/
def md5K : List Nat :=
  [0xd76aa478, 0xe8c7b756, 0x242070db, 0xc1bdceee,
   0xf57c0faf, 0x4787c62a, 0xa8304613, 0xfd469501,
   0x698098d8, 0x8b44f7af, 0xffff5bb1, 0x895cd7be,
   0x6b901122, 0xfd987193, 0xa679438e, 0x49b40821,
   0xf61e2562, 0xc040b340, 0x265e5a51, 0xe9b6c7aa,
   0xd62f105d, 0x02441453, 0xd8a1e681, 0xe7d3fbc8,
   0x21e1cde6, 0xc33707d6, 0xf4d50d87, 0x455a14ed,
   0xa9e3e905, 0xfcefa3f8, 0x676f02d9, 0x8d2a4c8a,
   0xfffa3942, 0x8771f681, 0x6d9d6122, 0xfde5380c,
   0xa4beea44, 0x4bdecfa9, 0xf6bb4b60, 0xbebfbc70,
   0x289b7ec6, 0xeaa127fa, 0xd4ef3085, 0x04881d05,
   0xd9d4d039, 0xe6db99e5, 0x1fa27cf8, 0xc4ac5665,
   0xf4292244, 0x432aff97, 0xab9423a7, 0xfc93a039,
   0x655b59c3, 0x8f0ccc92, 0xffeff47d, 0x85845dd1,
   0x6fa87e4f, 0xfe2ce6e0, 0xa3014314, 0x4e0811a1,
   0xf7537e82, 0xbd3af235, 0x2ad7d2bb, 0xeb86d391]

/-- Per-round left-rotation amounts of MD5 (RFC 1321). -/
def md5S : List Nat :=
  [7, 12, 17, 22, 7, 12, 17, 22, 7, 12, 17, 22, 7, 12, 17, 22,
   5, 9, 14, 20, 5, 9, 14, 20, 5, 9, 14, 20, 5, 9, 14, 20,
   4, 11, 16, 23, 4, 11, 16, 23, 4, 11, 16, 23, 4, 11, 16, 23,
   6, 10, 15, 21, 6, 10, 15, 21, 6, 10, 15, 21, 6, 10, 15, 21]

/-- Left rotation of a 32-bit word (x assumed < 2^32, 0 < n < 32). -/
def rotl32 (x n : Nat) : Nat := (x * 2 ^ n + x / 2 ^ (32 - n)) % M32

/-- Message-schedule index for step i of MD5. -/
def md5g (i : Nat) : Nat :=
  if i < 16 then i
  else if i < 32 then (5 * i + 1) % 16
  else if i < 48 then (3 * i + 5) % 16
  else (7 * i) % 16

/-- Round function of MD5: F, G, H, I depending on the step index. -/
def md5F (i b c d : Nat) : Nat :=
  if i < 16 then (b &&& c) ||| ((b ^^^ 4294967295) &&& d)
  else if i < 32 then (d &&& b) ||| ((d ^^^ 4294967295) &&& c)
  else if i < 48 then b ^^^ c ^^^ d
  else c ^^^ (b ||| (d ^^^ 4294967295))

/-- Little-endian 8-byte encoding of a 64-bit length value. -/
def le64 (n : Nat) : List Nat := (List.range 8).map fun i => n / 2 ^ (8 * i) % 256

/-- Little-endian 4-byte decomposition of a 32-bit word. -/
def le32bytes (w : Nat) : List Nat := [w % 256, w / 256 % 256, w / 65536 % 256, w / 16777216 % 256]

/-- MD5 padding: append 0x80, zero-fill to 56 mod 64, append the bit length little-endian. -/
def md5pad (msg : List Nat) : List Nat :=
  let zeros := (119 - msg.length % 64) % 64
  msg ++ 128 :: List.replicate zeros 0 ++ le64 (msg.length * 8)

/-- Split a byte list into 64-byte chunks. -/
def chunks64 : List Nat → List (List Nat)
  | [] => []
  | a :: rest => ((a :: rest).take 64) :: chunks64 ((a :: rest).drop 64)
termination_by l => l.length
decreasing_by simp [List.length_drop]; omega

/-- Read the j-th little-endian 32-bit word out of a 64-byte block. -/
def le32of (bs : List Nat) (j : Nat) : Nat :=
  bs.getD (4 * j) 0 + 256 * bs.getD (4 * j + 1) 0 + 65536 * bs.getD (4 * j + 2) 0 +
    16777216 * bs.getD (4 * j + 3) 0

/-- The 16 message words of one 64-byte block. -/
def blockWords (bs : List Nat) : List Nat := (List.range 16).map (le32of bs)

/-- One of the 64 MD5 steps: rotate the running (a, b, c, d) state. -/
def md5round (w : List Nat) (st : Nat × Nat × Nat × Nat) (i : Nat) : Nat × Nat × Nat × Nat :=
  match st with
  | (a, b, c, d) =>
    let f := (a + md5F i b c d + md5K.getD i 0 + w.getD (md5g i) 0) % M32
    (d, (b + rotl32 f (md5S.getD i 0)) % M32, b, c)

/-- Process one 64-byte block, adding the mixed state back into the chaining state. -/
def md5block (st : Nat × Nat × Nat × Nat) (blk : List Nat) : Nat × Nat × Nat × Nat :=
  match st, (List.range 64).foldl (md5round (blockWords blk)) st with
  | (a0, b0, c0, d0), (a, b, c, d) =>
    ((a + a0) % M32, (b + b0) % M32, (c + c0) % M32, (d + d0) % M32)

/-- Full MD5 digest of a byte list: 16 output bytes. -/
def md5sum (msg : List Nat) : List Nat :=
  match (chunks64 (md5pad msg)).foldl md5block (1732584193, 4023233417, 2562383102, 271733878) with
  | (a, b, c, d) => le32bytes a ++ le32bytes b ++ le32bytes c ++ le32bytes d

/-- Lowercase hexadecimal digit characters. -/
def hexDigitChar (n : Nat) : Char :=
  ("0123456789abcdef".data).getD n '0'

/-- Two lowercase hex characters for each byte. -/
def hexOfBytes : List Nat → List Char
  | [] => []
  | b :: t => hexDigitChar (b / 16 % 16) :: hexDigitChar (b % 16) :: hexOfBytes t

/-- UTF-8 encoding of one character as bytes. -/
def utf8EncodeChar (c : Char) : List Nat :=
  let n := c.toNat
  if n < 128 then [n]
  else if n < 2048 then [192 + n / 64, 128 + n % 64]
  else if n < 65536 then [224 + n / 4096, 128 + n / 64 % 64, 128 + n % 64]
  else [240 + n / 262144, 128 + n / 4096 % 64, 128 + n / 64 % 64, 128 + n % 64]

/-- UTF-8 bytes of a string, the bytes Go obtains by casting a string to a byte slice. -/
def utf8Bytes (s : String) : List Nat := s.data.foldr (fun c acc => utf8EncodeChar c ++ acc) []

/-- The hex-encoded MD5 digest of a string: hex.EncodeToString of md5.Sum of the UTF-8 bytes. -/
def md5hex (s : String) : String := String.mk (hexOfBytes (md5sum (utf8Bytes s)))

/-- Cache fingerprint computed by visData, part_000 lines 1096-1105: when the
requesting identity differs from the data owner the key is the digest of the
query parameters alone under a visdat-pub- tag; when the requester is the owner
the requesting identity is mixed into the digest under a visdat- tag. -/
def pageCacheKey (loggedInUser userName dbName requestedTable xCol yCol wCol wType wVal :
    String) : String :=
  if loggedInUser ≠ userName then
    "visdat-pub-" ++
      md5hex (userName ++ "/" ++ dbName ++ "/" ++ requestedTable ++ xCol ++ yCol ++ wCol ++
        wType ++ wVal)
  else
    "visdat-" ++
      md5hex (loggedInUser ++ "-" ++ userName ++ "/" ++ dbName ++ "/" ++ requestedTable ++
        xCol ++ yCol ++ wCol ++ wType ++ wVal)

/-! ## Data model

Record types of the common package, reconstructed from their use sites in
part_000 (field names follow the source; the field called Type in the source
is called Typ here because Type is a Lean keyword). -/

/-- Single filter clause handed to the column read, part_000 line 1067:
com.WhereClause with fields Column, Type (here Typ) and Value. -/
structure WhereClause where
  Column : String
  Typ : String
  Value : String
deriving DecidableEq, Repr

/-- Result-set structure serialized to the front end (com.SQLiteRecordSet):
row data plus a row count and a separately attached total row count. -/
structure SQLiteRecordSet where
  Tablename : String
  ColNames : List String
  RowCount : Nat
  TotalRows : Nat
  Records : List (List String)
deriving DecidableEq, Repr

/-- One table of an opened SQLite database: name, column names, rows. -/
structure Table where
  name : String
  cols : List String
  rows : List (List String)
deriving DecidableEq, Repr

/-- An opened SQLite database handle: its list of tables. -/
structure SQLiteDB where
  tables : List Table
deriving DecidableEq, Repr

/-- Find a table of the database by name. -/
def lookupTable (db : SQLiteDB) (t : String) : Option Table :=
  db.tables.find? fun tb => tb.name == t

/-! ## Identifier validation and the WHERE-clause assembly of visData -/

/-- Modelled from the spec: the Identifier Validator for table and column
names (com.ValidatePGTable, repository code outside the provided source)
accepts only nonempty strings of bounded length over a conservative
whitelist of alphanumerics, underscore, space and mild punctuation. -/
def ValidatePGTable (s : String) : Bool :=
  !s.isEmpty && s.length ≤ 63 &&
    s.data.all fun c => c.isAlphanum || c = '_' || c = ' ' || c = '.' || c = '-'

/-- The exact operator whitelist of the switch statement in part_000
lines 1049-1058. -/
def whereOps : List String := ["LIKE", "=", "!=", "<", "<=", ">", ">="]

/-- WHERE-part assembly of visData, part_000 lines 1032-1072: validate the
filter column when nonempty, restrict the operator to whereOps (an invalid
nonempty operator aborts the request), and build the single filter clause
only when both a value and an operator are present.  Returns none on an
aborting validation failure, otherwise (wCol, wType, wVal, whereClauses)
exactly as the source leaves those variables. -/
def visDataWhereParts (reqWCol reqWType reqWVal : String) :
    Option (String × String × String × List WhereClause) :=
  (if reqWCol ≠ "" then (if ValidatePGTable reqWCol then some reqWCol else none)
   else some "").bind fun wCol =>
  (if reqWType = "" then some ""
   else if reqWType ∈ whereOps then some reqWType
   else none).bind fun wType =>
  if reqWVal ≠ "" ∧ wType ≠ "" then
    some (wCol, wType, reqWVal, [⟨wCol, wType, reqWVal⟩])
  else
    some (wCol, wType, "", [])

/-! ## Tabular query engine

The SQLite helpers of the common package are repository code outside the
provided source slices; they are modelled from the spec, section 4.4. -/

/-- Case-insensitive LIKE pattern matching over characters, with the SQLite
wildcards percent (any run) and underscore (any one character). -/
def likeMatch : List Char → List Char → Bool
  | [], [] => true
  | [], _ :: _ => false
  | '%' :: ps, [] => likeMatch ps []
  | '%' :: ps, c :: cs => likeMatch ps (c :: cs) || likeMatch ('%' :: ps) cs
  | '_' :: _, [] => false
  | '_' :: ps, _ :: cs => likeMatch ps cs
  | _ :: _, [] => false
  | p :: ps, c :: cs => (p.toLower == c.toLower) && likeMatch ps cs
termination_by p c => p.length + c.length
decreasing_by all_goals (simp; try omega)

/-- String comparison used for the relational filter operators. -/
def strLt (a b : String) : Bool :=
  match compare a b with
  | Ordering.lt => true
  | _ => false

/-- Modelled from the spec: semantics of one filter operator from whereOps,
applied to a cell value a and a bound parameter b, at text level (section
4.4: values are passed through without type coercion by this layer). -/
def whereOpHolds (op a b : String) : Bool :=
  if op = "=" then a == b
  else if op = "!=" then !(a == b)
  else if op = "<" then strLt a b
  else if op = "<=" then strLt a b || a == b
  else if op = ">" then strLt b a
  else if op = ">=" then strLt b a || a == b
  else if op = "LIKE" then likeMatch b.data a.data
  else false

/-- Index of a column inside a table. -/
def colIndex (t : Table) (c : String) : Nat := t.cols.indexOf c

/-- Whether a row satisfies one filter clause. -/
def rowMatches (t : Table) (row : List String) (c : WhereClause) : Bool :=
  whereOpHolds c.Typ (row.getD (colIndex t c.Column) "") c.Value

/-- Modelled from the spec: com.ReadSQLiteDB, the full table dump of section
4.4, shape 1: all columns of the requested table, capped at maxRows rows in
natural order; fails with TableNotFound when the table is absent.  The total
row count is not computed here: the caller attaches it separately (see
part_000 lines 762-767, which overwrite TotalRows after this call). -/
def ReadSQLiteDB (db : SQLiteDB) (dbTable : String) (maxRows : Nat) :
    Except String SQLiteRecordSet :=
  match lookupTable db dbTable with
  | none => Except.error ("TableNotFound: " ++ dbTable)
  | some t =>
    let recs := t.rows.take maxRows
    Except.ok
      { Tablename := dbTable, ColNames := t.cols, RowCount := recs.length, TotalRows := 0,
        Records := recs }

/-- Modelled from the spec: com.ReadSQLiteDBCols, the two-column projection of
section 4.4, shape 2: only the two named columns, the optional filter applied
through parameter binding, capped at maxRows rows; fails with TableNotFound
when the table is absent and with a column error when a named column is
absent.  As in ReadSQLiteDB, the total row count is left for the caller. -/
def ReadSQLiteDBCols (db : SQLiteDB) (dbTable : String)
    (_ignoreBinary _ignoreNull : Bool) (maxRows : Nat) (wc : List WhereClause)
    (xCol yCol : String) : Except String SQLiteRecordSet :=
  match lookupTable db dbTable with
  | none => Except.error ("TableNotFound: " ++ dbTable)
  | some t =>
    if !(t.cols.contains xCol) then Except.error ("no such column: " ++ xCol)
    else if !(t.cols.contains yCol) then Except.error ("no such column: " ++ yCol)
    else if wc.any fun c => !(t.cols.contains c.Column) then
      Except.error "no such column in WHERE clause"
    else
      let kept := t.rows.filter fun row => wc.all (rowMatches t row)
      let recs :=
        (kept.map fun row => [row.getD (colIndex t xCol) "", row.getD (colIndex t yCol) ""]).take
          maxRows
      Except.ok
        { Tablename := dbTable, ColNames := [xCol, yCol], RowCount := recs.length,
          TotalRows := 0, Records := recs }

/-- Modelled from the spec: com.GetSQLiteRowCount, the separate SELECT COUNT
query of section 4.4, shape 3: the full row count of the table, independent of
any cap. -/
def GetSQLiteRowCount (db : SQLiteDB) (dbTable : String) : Except String Nat :=
  match lookupTable db dbTable with
  | none => Except.error ("TableNotFound: " ++ dbTable)
  | some t => Except.ok t.rows.length

/-- Text of the further AND fragments after the first clause. -/
def andText : List WhereClause → String
  | [] => ""
  | c :: rest => " AND " ++ c.Column ++ " " ++ c.Typ ++ " ?" ++ andText rest

/-- Text of the optional leading WHERE fragment: column and operator are
interpolated (they passed the identifier validator), the value is replaced by
a question-mark placeholder. -/
def whereText : List WhereClause → String
  | [] => ""
  | c :: rest => " WHERE " ++ c.Column ++ " " ++ c.Typ ++ " ?" ++ andText rest

/-- Modelled from the spec: the single trusted query-construction path of the
design notes compiles the clause list into parameter-bound query text; filter
values appear only in the bind list, never in the text. -/
def buildVisQuery (xCol yCol tbl : String) (cs : List WhereClause) :
    String × List String :=
  ("SELECT " ++ xCol ++ ", " ++ yCol ++ " FROM " ++ tbl ++ whereText cs ++ " LIMIT ?",
   cs.map WhereClause.Value)

/-! ## JSON wire output

A model of the Go encoding/json serialization of SQLiteRecordSet, plus a
small delimiter checker used to state well-formedness of response bytes. -/

/-- Escape of one character inside a JSON string literal. -/
def jsonEscapeChar (c : Char) : List Char :=
  if c = '"' then ['\\', '"'] else if c = '\\' then ['\\', '\\'] else [c]

/-- A JSON string literal. -/
def jsonStr (s : String) : String :=
  "\"" ++ String.mk (s.data.foldr (fun c acc => jsonEscapeChar c ++ acc) []) ++ "\""

/-- A JSON array out of already serialized elements. -/
def jsonArr (xs : List String) : String := "[" ++ String.intercalate "," xs ++ "]"

/-- Modelled from the spec: the wire serialization of a result set (section
6), with the Go field names of SQLiteRecordSet as object keys. -/
def jsonOfRecordSet (rs : SQLiteRecordSet) : String :=
  "\x7b\"Tablename\":" ++ jsonStr rs.Tablename ++
    ",\"ColNames\":" ++ jsonArr (rs.ColNames.map jsonStr) ++
    ",\"RowCount\":" ++ toString rs.RowCount ++
    ",\"TotalRows\":" ++ toString rs.TotalRows ++
    ",\"Records\":" ++ jsonArr (rs.Records.map fun r => jsonArr (r.map jsonStr)) ++ "\x7d"

/-- Delimiter discipline of a JSON document: braces and brackets nest and
match, quotes pair up, backslash escapes inside strings are skipped. -/
def jsonDelimsOk : List Char → List Char → Bool → Bool
  | [], stack, inStr => !inStr && stack.isEmpty
  | '\\' :: rest, stack, true =>
    (match rest with
     | [] => false
     | _ :: rest2 => jsonDelimsOk rest2 stack true)
  | c :: rest, stack, true =>
    if c = '"' then jsonDelimsOk rest stack false else jsonDelimsOk rest stack true
  | c :: rest, stack, false =>
    if c = '"' then jsonDelimsOk rest stack true
    else if c = '\x7b' then jsonDelimsOk rest ('\x7d' :: stack) false
    else if c = '[' then jsonDelimsOk rest (']' :: stack) false
    else if c = '\x7d' ∨ c = ']' then
      (match stack with
       | top :: stack2 => (top == c) && jsonDelimsOk rest stack2 false
       | [] => false)
    else jsonDelimsOk rest stack false

/-- A byte string whose delimiters balance; the malformed zero-row token of
part_000 line 780 fails this check. -/
def jsonBalanced (s : String) : Bool := jsonDelimsOk s.data [] false

/-! ## tableViewHandler (part_000 lines 673-785)

The handler is embedded as a pure function of an environment that carries the
already-extracted request parameters (GetODTV performs extraction and
validation, spec section 1: path components arrive already validated) and the
results of the external collaborators.  The second component of the result is
the number of object-store read handles acquired and never released when the
handler returns; the source contains no Close for the handle opened on line
720, on any path. -/

/-- Outcome of a table-view request: an error page with an HTTP status, a
bare return that only logs (the response body stays empty), or a written
response body. -/
inductive TVOut where
  | errorPage (status : Nat) (msg : String)
  | logOnly (msg : String)
  | body (bytes : String)
deriving DecidableEq, Repr

/-- Environment of one tableViewHandler invocation: request parameters,
session identity, and the results the external collaborators would return. -/
structure TVEnv where
  dbOwner : String
  dbName : String
  requestedTable : String
  loggedInUser : String
  minio : Except String (String × String)
  openRes : Except String SQLiteDB
  prefMaxRows : String → Nat

/-- Row cap selection of part_000 lines 709-717: the stored per-user
preference when logged in, 10 rows when anonymous. -/
def tableViewMaxRows (e : TVEnv) : Nat :=
  if e.loggedInUser ≠ "" then e.prefMaxRows e.loggedInUser else 10

/-- Embedding of tableViewHandler, part_000 lines 673-785.  The open error of
line 720 is not checked in the source; listing the tables of a failed open is
modelled as the table-listing failure path with no handle acquired. -/
def tableViewHandler (e : TVEnv) : TVOut × Nat :=
  match e.minio with
  | Except.error msg => (TVOut.errorPage 500 msg, 0)
  | Except.ok (_bucket, id) =>
    if id = "" then (TVOut.logOnly "Requested database not found", 0)
    else
      match e.openRes with
      | Except.error _ => (TVOut.logOnly "Error retrieving table names", 0)
      | Except.ok sdb =>
        let tables := sdb.tables.map Table.name
        if tables.isEmpty then
          (TVOut.logOnly "The database has no tables", 1)
        else if e.requestedTable ≠ "" ∧ e.requestedTable ∉ tables then
          (TVOut.errorPage 400 "Requested table does not exist", 1)
        else
          let t := if e.requestedTable = "" then tables.headD "" else e.requestedTable
          match ReadSQLiteDB sdb t (tableViewMaxRows e) with
          | Except.error msg => (TVOut.errorPage 400 msg, 1)
          | Except.ok dataRows =>
            match GetSQLiteRowCount sdb t with
            | Except.error msg => (TVOut.errorPage 500 msg, 1)
            | Except.ok n =>
              let dataRows2 := { dataRows with TotalRows := n }
              if dataRows2.RowCount > 0 then
                (TVOut.body (jsonOfRecordSet dataRows2), 1)
              else
                (TVOut.body "\x7b]", 1)

/-! ## visData (part_000 lines 991-1182) -/

/-- Outcome of a visualisation-data request. -/
inductive VisOut where
  | errorPage (status : Nat) (msg : String)
  | logOnly (msg : String)
  | body (bytes : String)
deriving DecidableEq, Repr

/-- Environment of one visData invocation: request parameters from GetODT and
the form values, the session identity, and the results the external
collaborators would return.  The cache field models com.GetCachedData as the
current content of the result cache. -/
structure VisEnv where
  userName : String
  dbName : String
  requestedTable : String
  reqXCol : String
  reqYCol : String
  reqWCol : String
  reqWType : String
  reqWVal : String
  loggedInUser : String
  accessCheck : Except String Unit
  cache : String → Option String
  openRes : Except String SQLiteDB

/-- Embedding of visData, part_000 lines 991-1182.  Notable source facts kept
by the embedding: the dead dbTable fallback of lines 1139-1152 is computed but
never used, both reads of lines 1157-1159 receive requestedTable as given; the
handle opened on line 1120 is never released (second result component); the
CacheData write-back of lines 1174-1178 does not influence the response. -/
def visData (e : VisEnv) : VisOut × Nat :=
  let xv := if e.reqXCol ≠ "" then
      (if ValidatePGTable e.reqXCol then some e.reqXCol else none)
    else some ""
  match xv with
  | none => (VisOut.logOnly "Validation failed for SQLite column name", 0)
  | some xCol =>
    let yv := if e.reqYCol ≠ "" then
        (if ValidatePGTable e.reqYCol then some e.reqYCol else none)
      else some ""
    match yv with
    | none => (VisOut.logOnly "Validation failed for SQLite column name", 0)
    | some yCol =>
      match visDataWhereParts e.reqWCol e.reqWType e.reqWVal with
      | none => (VisOut.logOnly "Validation failed on WHERE clause", 0)
      | some (wCol, wType, wVal, whereClauses) =>
        match e.accessCheck with
        | Except.error msg => (VisOut.errorPage 400 msg, 0)
        | Except.ok _ =>
          let key := pageCacheKey e.loggedInUser e.userName e.dbName e.requestedTable
            xCol yCol wCol wType wVal
          match e.cache key with
          | some cached => (VisOut.body cached, 0)
          | none =>
            match e.openRes with
            | Except.error _ => (VisOut.logOnly "", 0)
            | Except.ok sdb =>
              let tables := sdb.tables.map Table.name
              if tables.isEmpty then
                (VisOut.logOnly "The database has no tables", 1)
              else
                let _dbTable := if e.requestedTable ≠ "" ∧ e.requestedTable ∈ tables then
                    e.requestedTable
                  else tables.headD ""
                let maxVals := 2500
                let res := if xCol ≠ "" ∧ yCol ≠ "" then
                    ReadSQLiteDBCols sdb e.requestedTable true true maxVals whereClauses
                      xCol yCol
                  else ReadSQLiteDB sdb e.requestedTable maxVals
                match res with
                | Except.error msg => (VisOut.errorPage 400 msg, 1)
                | Except.ok data => (VisOut.body (jsonOfRecordSet data), 1)

/-! ## Upload pipeline pieces (uploadDataHandler, part_000 lines 814-989) -/

/-- Version step of uploadDataHandler, part_000 lines 932-940: the next
version is one past the highest stored version when one exists, else 1. -/
def uploadNewVer (highVer : Nat) : Nat :=
  if highVer > 0 then highVer + 1 else 1

/-- Object-id generation loop of uploadDataHandler, part_000 lines 949-959,
expressed step-indexed: avail is com.CheckMinioIDAvail for the fixed uploader,
randStr the successive draws of com.RandomString 8, attempt the iteration
counter, and fuel the number of loop iterations unrolled.  A none value means
the loop is still running after fuel iterations; the source loop itself has no
attempt cap, so none is the faithful image of a run in which no generated id
was ever reported available. -/
def genMinioID (avail : String → Except String Bool) (randStr : Nat → String) :
    Nat → Nat → Option (Except String String)
  | _, 0 => none
  | attempt, fuel + 1 =>
    let minioID := randStr attempt ++ ".db"
    match avail minioID with
    | Except.error e => some (Except.error e)
    | Except.ok true => some (Except.ok minioID)
    | Except.ok false => genMinioID avail randStr (attempt + 1) fuel

/-! ## Concrete fixtures

Small concrete databases and request environments used by the closed
counterexample theorems and by the witnesses of the general theorems. -/

/-- A five-row table named t with columns a and b. -/
def tblFive : Table :=
  ⟨"t", ["a", "b"], [["1", "x"], ["2", "y"], ["3", "z"], ["4", "w"], ["5", "v"]]⟩

/-- The same table shape with zero rows. -/
def tblZero : Table := ⟨"t", ["a", "b"], []⟩

/-- A database holding the five-row table. -/
def dbFive : SQLiteDB := ⟨[tblFive]⟩

/-- A database holding the zero-row table. -/
def dbZero : SQLiteDB := ⟨[tblZero]⟩

/-- Anonymous table-view request against the zero-row table. -/
def c3Env : TVEnv :=
  { dbOwner := "alice", dbName := "d", requestedTable := "t", loggedInUser := "",
    minio := Except.ok ("bkt", "obj1"), openRes := Except.ok dbZero,
    prefMaxRows := fun _ => 50 }

/-- Anonymous table-view request against the five-row table. -/
def c5Env : TVEnv :=
  { dbOwner := "alice", dbName := "d", requestedTable := "t", loggedInUser := "",
    minio := Except.ok ("bkt", "obj1"), openRes := Except.ok dbFive,
    prefMaxRows := fun _ => 50 }

/-- Table-view request for a table name absent from the database. -/
def c2Env : TVEnv :=
  { dbOwner := "alice", dbName := "d", requestedTable := "missing", loggedInUser := "",
    minio := Except.ok ("bkt", "obj1"), openRes := Except.ok dbFive,
    prefMaxRows := fun _ => 50 }

/-- Visualisation request (two columns, no filter) against the five-row
table, anonymous requester, cold cache. -/
def c4Env : VisEnv :=
  { userName := "alice", dbName := "d", requestedTable := "t", reqXCol := "a",
    reqYCol := "b", reqWCol := "", reqWType := "", reqWVal := "", loggedInUser := "",
    accessCheck := Except.ok (), cache := fun _ => none, openRes := Except.ok dbFive }

/-- The record set the five-row projection produces: all five rows, with a
TotalRows field left at zero. -/
def c4rs : SQLiteRecordSet :=
  { Tablename := "t", ColNames := ["a", "b"], RowCount := 5, TotalRows := 0,
    Records := [["1", "x"], ["2", "y"], ["3", "z"], ["4", "w"], ["5", "v"]] }

/-- Visualisation request for a table name absent from the database. -/
def c2vEnv : VisEnv :=
  { userName := "alice", dbName := "d", requestedTable := "missing", reqXCol := "a",
    reqYCol := "b", reqWCol := "", reqWType := "", reqWVal := "", loggedInUser := "",
    accessCheck := Except.ok (), cache := fun _ => none, openRes := Except.ok dbFive }

/-- Visualisation request carrying a filter value but an empty operator. -/
def c10Env : VisEnv :=
  { userName := "alice", dbName := "d", requestedTable := "t", reqXCol := "a",
    reqYCol := "b", reqWCol := "a", reqWType := "", reqWVal := "needle",
    loggedInUser := "", accessCheck := Except.ok (), cache := fun _ => none,
    openRes := Except.ok dbFive }

/-- Visualisation request carrying a nonempty operator outside the whitelist
together with an empty filter value. -/
def c10BadEnv : VisEnv :=
  { userName := "alice", dbName := "d", requestedTable := "t", reqXCol := "a",
    reqYCol := "b", reqWCol := "a", reqWType := "BETWEEN", reqWVal := "",
    loggedInUser := "", accessCheck := Except.ok (), cache := fun _ => none,
    openRes := Except.ok dbFive }

/-- Table-view request used by the row-cap witness: a logged-in requester
whose stored preference is 3 rows. -/
def c7Env : TVEnv :=
  { dbOwner := "alice", dbName := "d", requestedTable := "t", loggedInUser := "bob",
    minio := Except.ok ("bkt", "obj1"), openRes := Except.ok dbFive,
    prefMaxRows := fun _ => 3 }

/-! ## Helper lemmas -/

theorem hexOfBytes_length (bs : List Nat) : (hexOfBytes bs).length = 2 * bs.length := by
  induction bs with
  | nil => simp [hexOfBytes]
  | cons b t ih => simp [hexOfBytes, ih]; omega

theorem md5sum_length (msg : List Nat) : (md5sum msg).length = 16 := by
  rcases h : (chunks64 (md5pad msg)).foldl md5block
      (1732584193, 4023233417, 2562383102, 271733878) with ⟨a, b, c, d⟩
  simp [md5sum, h, le32bytes]

theorem md5hex_length (s : String) : (md5hex s).length = 32 := by
  show (hexOfBytes (md5sum (utf8Bytes s))).length = 32
  rw [hexOfBytes_length, md5sum_length]

theorem pageCacheKey_nonowner (r owner db tbl x y wc wt wv : String) (h : r ≠ owner) :
    pageCacheKey r owner db tbl x y wc wt wv =
      "visdat-pub-" ++ md5hex (owner ++ "/" ++ db ++ "/" ++ tbl ++ x ++ y ++ wc ++ wt ++ wv) := by
  simp [pageCacheKey, h]

theorem pageCacheKey_owner (owner db tbl x y wc wt wv : String) :
    pageCacheKey owner owner db tbl x y wc wt wv =
      "visdat-" ++
        md5hex (owner ++ "-" ++ owner ++ "/" ++ db ++ "/" ++ tbl ++ x ++ y ++ wc ++ wt ++ wv) := by
  simp [pageCacheKey]

theorem lookupTable_eq_none (db : SQLiteDB) (t : String)
    (h : t ∉ db.tables.map Table.name) : lookupTable db t = none := by
  rw [lookupTable, List.find?_eq_none]
  intro tb htb
  simp only [beq_iff_eq]
  intro hname
  exact h (List.mem_map.mpr ⟨tb, htb, hname⟩)

theorem ReadSQLiteDB_rowCount_le (db : SQLiteDB) (t : String) (mx : Nat)
    (rs : SQLiteRecordSet) (h : ReadSQLiteDB db t mx = Except.ok rs) :
    rs.RowCount ≤ mx := by
  unfold ReadSQLiteDB at h
  rcases hl : lookupTable db t with _ | tb
  · rw [hl] at h; exact absurd h (by simp)
  · rw [hl] at h
    simp only [Except.ok.injEq] at h
    subst h
    exact tb.rows.length_take_le mx

theorem ReadSQLiteDBCols_shape (db : SQLiteDB) (t : String) (b1 b2 : Bool) (mx : Nat)
    (wc : List WhereClause) (x y : String) (rs : SQLiteRecordSet)
    (h : ReadSQLiteDBCols db t b1 b2 mx wc x y = Except.ok rs) :
    rs.RowCount ≤ mx ∧ rs.TotalRows = 0 := by
  rcases hl : lookupTable db t with _ | tb
  · rw [ReadSQLiteDBCols, hl] at h
    cases h
  · rw [ReadSQLiteDBCols, hl] at h
    simp only [] at h
    split at h
    · cases h
    · split at h
      · cases h
      · split at h
        · cases h
        · cases h
          exact ⟨List.length_take_le mx _, rfl⟩

/-! ## Claim theorems -/

/-- C1: cache fingerprint identity rule.  For a fixed parameter tuple
(owner, database, table, x column, y column, filter column, filter operator,
filter value), the fingerprint of part_000 lines 1096-1105 is identical for
any two requesters who are not the owner (the anonymous empty identity
included), and the fingerprint computed for the owner herself differs from
that shared non-owner fingerprint. -/
theorem c1_cache_fingerprint (owner db tbl x y wc wt wv r1 r2 : String)
    (h1 : r1 ≠ owner) (h2 : r2 ≠ owner) :
    pageCacheKey r1 owner db tbl x y wc wt wv = pageCacheKey r2 owner db tbl x y wc wt wv ∧
    pageCacheKey owner owner db tbl x y wc wt wv ≠ pageCacheKey r1 owner db tbl x y wc wt wv := by
  constructor
  · rw [pageCacheKey_nonowner r1 owner db tbl x y wc wt wv h1,
      pageCacheKey_nonowner r2 owner db tbl x y wc wt wv h2]
  · rw [pageCacheKey_owner, pageCacheKey_nonowner r1 owner db tbl x y wc wt wv h1]
    intro hEq
    have hlen := congrArg String.length hEq
    have h7 : ("visdat-" : String).length = 7 := rfl
    have h11 : ("visdat-pub-" : String).length = 11 := rfl
    rw [String.length_append, String.length_append, h7, h11, md5hex_length,
      md5hex_length] at hlen
    omega

/-- Witness for C1 at the concrete inputs of the spec scenario: anonymous and
bob share one fingerprint for the public parameters of alice, and alice
herself gets a different fingerprint. -/
theorem c1_cache_fingerprint_witness :
    pageCacheKey "" "alice" "d" "t" "" "" "" "" "" =
      pageCacheKey "bob" "alice" "d" "t" "" "" "" "" "" ∧
    pageCacheKey "alice" "alice" "d" "t" "" "" "" "" "" ≠
      pageCacheKey "" "alice" "d" "t" "" "" "" "" "" :=
  c1_cache_fingerprint "alice" "d" "t" "" "" "" "" "" "" "bob" (by decide) (by decide)

/-- C8: version assignment of uploadDataHandler, part_000 lines 932-940.  The
version given to a new upload is the current highest version plus one when a
prior version exists (highest greater than zero), and 1 when none exists. -/
theorem c8_next_version (highVer : Nat) :
    (0 < highVer → uploadNewVer highVer = highVer + 1) ∧
    (highVer = 0 → uploadNewVer highVer = 1) := by
  constructor
  · intro h
    simp [uploadNewVer, h]
  · intro h
    simp [uploadNewVer, h]

/-- Witness for C8 at highest version 3 and at no existing version. -/
theorem c8_next_version_witness : uploadNewVer 3 = 4 ∧ uploadNewVer 0 = 1 :=
  ⟨(c8_next_version 3).1 (by decide), (c8_next_version 0).2 rfl⟩

/-- C9: the object-id generation loop of part_000 lines 949-959 evaluated
against an availability oracle that reports every generated id as taken.  For
every number of unrolled iterations the loop is still running (genMinioID
yields none): the source loop has no attempt cap and no StorageExhausted
terminal error, contrary to the claim. -/
theorem c9_unbounded (attempt fuel : Nat) :
    genMinioID (fun _ => Except.ok false) (fun _ => "x") attempt fuel = none := by
  induction fuel generalizing attempt with
  | zero => rfl
  | succ n ih => simpa [genMinioID] using ih (attempt + 1)

/-! ## Evaluation lemmas for the two handlers -/

theorem tableViewHandler_missing (e : TVEnv) (bucket id : String) (db : SQLiteDB)
    (hm : e.minio = Except.ok (bucket, id)) (hid : id ≠ "")
    (ho : e.openRes = Except.ok db) (hne : db.tables ≠ [])
    (ht : e.requestedTable ≠ "")
    (hmiss : e.requestedTable ∉ db.tables.map Table.name) :
    tableViewHandler e = (TVOut.errorPage 400 "Requested table does not exist", 1) := by
  have hne2 : (db.tables.map Table.name).isEmpty = false := by
    simp [List.isEmpty_iff, hne]
  simp only [tableViewHandler, hm, ho, hne2, Bool.false_eq_true, if_false, if_neg hid]
  rw [if_pos ⟨ht, hmiss⟩]

theorem tableViewHandler_success (e : TVEnv) (bucket id : String) (db : SQLiteDB)
    (tb : Table) (rs : SQLiteRecordSet)
    (hm : e.minio = Except.ok (bucket, id)) (hid : id ≠ "")
    (ho : e.openRes = Except.ok db)
    (ht : e.requestedTable ≠ "")
    (hmem : e.requestedTable ∈ db.tables.map Table.name)
    (hlook : lookupTable db e.requestedTable = some tb)
    (hread : ReadSQLiteDB db e.requestedTable (tableViewMaxRows e) = Except.ok rs)
    (hrc : rs.RowCount > 0) :
    tableViewHandler e =
      (TVOut.body (jsonOfRecordSet { rs with TotalRows := tb.rows.length }), 1) := by
  have hne : db.tables ≠ [] := by
    intro hnil
    rw [hnil] at hmem
    simp at hmem
  have hne2 : (db.tables.map Table.name).isEmpty = false := by
    simp [List.isEmpty_iff, hne]
  have hcount : GetSQLiteRowCount db e.requestedTable = Except.ok tb.rows.length := by
    rw [GetSQLiteRowCount, hlook]
  simp only [tableViewHandler, hm, ho, hne2, Bool.false_eq_true, if_false, if_neg hid]
  rw [if_neg (by intro hc; exact hc.2 hmem)]
  rw [if_neg ht]
  rw [hread, hcount]
  simp only []
  rw [if_pos hrc]

theorem visData_read (ev : VisEnv) (dbv : SQLiteDB) (xCol yCol wCol wType wVal : String)
    (cs : List WhereClause)
    (hx : (if ev.reqXCol ≠ "" then
        (if ValidatePGTable ev.reqXCol then some ev.reqXCol else none)
      else some "") = some xCol)
    (hy : (if ev.reqYCol ≠ "" then
        (if ValidatePGTable ev.reqYCol then some ev.reqYCol else none)
      else some "") = some yCol)
    (hwp : visDataWhereParts ev.reqWCol ev.reqWType ev.reqWVal =
      some (wCol, wType, wVal, cs))
    (hacc : ev.accessCheck = Except.ok ())
    (hcache : ∀ k, ev.cache k = none)
    (hov : ev.openRes = Except.ok dbv)
    (hnev : dbv.tables ≠ []) :
    visData ev =
      (match (if xCol ≠ "" ∧ yCol ≠ "" then
          ReadSQLiteDBCols dbv ev.requestedTable true true 2500 cs xCol yCol
        else ReadSQLiteDB dbv ev.requestedTable 2500) with
      | Except.error msg => (VisOut.errorPage 400 msg, 1)
      | Except.ok data => (VisOut.body (jsonOfRecordSet data), 1)) := by
  have hne2 : (dbv.tables.map Table.name).isEmpty = false := by
    simp [List.isEmpty_iff, hnev]
  simp only [visData, hx, hy, hwp, hacc, hcache, hov, hne2, Bool.false_eq_true, if_false]

theorem visDataWhereParts_noclause (rc rt rv : String)
    (hrc : rc = "" ∨ ValidatePGTable rc = true)
    (hrt : rt = "" ∨ rt ∈ whereOps)
    (hnc : rv = "" ∨ rt = "") :
    visDataWhereParts rc rt rv = some (rc, rt, "", []) := by
  have hcol : (if rc ≠ "" then
      (if ValidatePGTable rc then some rc else none) else some "") = some rc := by
    rcases hrc with hrc | hrc
    · simp [hrc]
    · by_cases h0 : rc = "" <;> simp [h0, hrc]
  have htyp : (if rt = "" then some ""
      else if rt ∈ whereOps then some rt else none) = some rt := by
    rcases hrt with hrt | hrt
    · simp [hrt]
    · by_cases h0 : rt = "" <;> simp [h0, hrt]
  rcases hnc with hnc | hnc <;> rw [visDataWhereParts, hcol, htyp] <;> simp [hnc]

theorem visDataWhereParts_clauses (rc rt rv wCol wType wVal : String)
    (cs : List WhereClause)
    (h : visDataWhereParts rc rt rv = some (wCol, wType, wVal, cs)) :
    ∀ c ∈ cs, c.Typ ∈ whereOps ∧ (c.Column ≠ "" → ValidatePGTable c.Column = true) ∧
      c.Value = rv := by
  intro c hc
  unfold visDataWhereParts at h
  rcases hcol : (if rc ≠ "" then (if ValidatePGTable rc then some rc else none)
      else some "") with _ | wc
  · simp [hcol] at h
  · rcases htyp : (if rt = "" then some ""
        else if rt ∈ whereOps then some rt else none) with _ | wt
    · simp [hcol, htyp] at h
    · rw [hcol, htyp] at h
      simp only [Option.some_bind] at h
      have hwc : wc = "" ∨ ValidatePGTable wc = true := by
        by_cases h1 : rc = ""
        · left
          simp [h1] at hcol
          exact hcol.symm
        · by_cases h2 : ValidatePGTable rc = true
          · right
            simp [h1, h2] at hcol
            rw [← hcol]
            exact h2
          · simp [h1, h2] at hcol
      have hwt : wt = "" ∨ wt ∈ whereOps := by
        by_cases h1 : rt = ""
        · left
          simp [h1] at htyp
          exact htyp.symm
        · by_cases h2 : rt ∈ whereOps
          · right
            simp [h1, h2] at htyp
            rw [← htyp]
            exact h2
          · simp [h1, h2] at htyp
      by_cases hfin : rv ≠ "" ∧ wt ≠ ""
      · rw [if_pos hfin] at h
        simp only [Option.some.injEq, Prod.mk.injEq] at h
        obtain ⟨e1, e2, e3, e4⟩ := h
        subst e4
        simp only [List.mem_singleton] at hc
        subst hc
        refine ⟨?_, ?_, rfl⟩
        · rcases hwt with h0 | h0
          · exact absurd h0 hfin.2
          · exact h0
        · intro hne
          rcases hwc with h0 | h0
          · exact absurd h0 hne
          · exact h0
      · rw [if_neg hfin] at h
        simp only [Option.some.injEq, Prod.mk.injEq] at h
        obtain ⟨e1, e2, e3, e4⟩ := h
        subst e4
        cases hc

theorem andText_value_free (cs : List WhereClause) :
    andText (cs.map fun c => ⟨c.Column, c.Typ, ""⟩) = andText cs := by
  induction cs with
  | nil => rfl
  | cons c rest ih => simp [andText, ih]

theorem whereText_value_free (cs : List WhereClause) :
    whereText (cs.map fun c => ⟨c.Column, c.Typ, ""⟩) = whereText cs := by
  cases cs with
  | nil => rfl
  | cons c rest => simp [whereText, andText_value_free]

/-- C2: a query execution naming a nonempty table that is not in the list of
tables of the database fails with a table-not-found error in both query
paths: tableViewHandler rejects it explicitly (part_000 lines 734-747) and
visData passes the name to the read, which fails with TableNotFound (lines
1139-1160); neither path substitutes another table or reports success.  The
table list is assumed nonempty, which every stored database satisfies since
the upload pipeline rejects table-less files (lines 922-927). -/
theorem c2_table_not_found (e : TVEnv) (ev : VisEnv) (bucket id : String)
    (db dbv : SQLiteDB) (xCol yCol wCol wType wVal : String) (cs : List WhereClause)
    (hm : e.minio = Except.ok (bucket, id)) (hid : id ≠ "")
    (ho : e.openRes = Except.ok db) (hne : db.tables ≠ [])
    (ht : e.requestedTable ≠ "")
    (hmiss : e.requestedTable ∉ db.tables.map Table.name)
    (hx : (if ev.reqXCol ≠ "" then
        (if ValidatePGTable ev.reqXCol then some ev.reqXCol else none)
      else some "") = some xCol)
    (hy : (if ev.reqYCol ≠ "" then
        (if ValidatePGTable ev.reqYCol then some ev.reqYCol else none)
      else some "") = some yCol)
    (hwp : visDataWhereParts ev.reqWCol ev.reqWType ev.reqWVal =
      some (wCol, wType, wVal, cs))
    (hacc : ev.accessCheck = Except.ok ())
    (hcache : ∀ k, ev.cache k = none)
    (hov : ev.openRes = Except.ok dbv) (hnev : dbv.tables ≠ [])
    (_htv : ev.requestedTable ≠ "")
    (hmissv : ev.requestedTable ∉ dbv.tables.map Table.name) :
    tableViewHandler e = (TVOut.errorPage 400 "Requested table does not exist", 1) ∧
    (visData ev).1 = VisOut.errorPage 400 ("TableNotFound: " ++ ev.requestedTable) := by
  constructor
  · exact tableViewHandler_missing e bucket id db hm hid ho hne ht hmiss
  · rw [visData_read ev dbv xCol yCol wCol wType wVal cs hx hy hwp hacc hcache hov hnev]
    have hl : lookupTable dbv ev.requestedTable = none :=
      lookupTable_eq_none dbv ev.requestedTable hmissv
    by_cases hxy : xCol ≠ "" ∧ yCol ≠ ""
    · rw [if_pos hxy]
      rw [ReadSQLiteDBCols, hl]
    · rw [if_neg hxy]
      rw [ReadSQLiteDB, hl]

/-- Witness for C2: the fixtures request the absent table missing from the
five-row database through both handlers. -/
theorem c2_table_not_found_witness :
    tableViewHandler c2Env = (TVOut.errorPage 400 "Requested table does not exist", 1) ∧
    (visData c2vEnv).1 = VisOut.errorPage 400 ("TableNotFound: " ++ c2vEnv.requestedTable) :=
  c2_table_not_found c2Env c2vEnv "bkt" "obj1" dbFive dbFive "a" "b" "" "" "" []
    rfl (by decide) rfl (by decide) (by decide) (by decide) rfl rfl rfl rfl
    (fun _ => rfl) rfl (by decide) (by decide) (by decide)

/-- C3: the zero-row wire response of tableViewHandler.  On a query yielding
zero rows the source (part_000 lines 769-784) does not serialize the record
set: it writes the literal two-byte token of an opening curly brace followed
by a closing square bracket, which is not a well-formed structure with an
explicit empty rows sequence (its delimiters do not even balance), contrary
to the claim and to spec section 6; spec section 9 itself flags this source
behavior as a bug. -/
theorem c3_zero_rows_malformed :
    tableViewHandler c3Env = (TVOut.body "\x7b]", 1) ∧ jsonBalanced "\x7b]" = false :=
  ⟨rfl, rfl⟩

/-- C4 counterexample: a successful two-column visualisation query over the
five-row table answers with a serialized record set whose TotalRows field is
0, while the separate count query would report 5: visData (part_000 lines
1154-1172) never runs the count query. -/
theorem c4_totalrows_counterexample :
    (visData c4Env).1 = VisOut.body (jsonOfRecordSet c4rs) ∧
    c4rs.TotalRows = 0 ∧ GetSQLiteRowCount dbFive "t" = Except.ok 5 :=
  ⟨rfl, rfl, rfl⟩

/-- C4 amended: the full-dump table view (part_000 lines 762-767) attaches a
total row count obtained from the separate count query, equal to the actual
number of rows of the table even when the returned rows are capped; the
two-column projection path of visData attaches no count, every successful
column read leaves TotalRows at 0. -/
theorem c4_total_rows_amended (e : TVEnv) (bucket id : String) (db : SQLiteDB)
    (tb : Table) (rs : SQLiteRecordSet) (dbv : SQLiteDB) (tblv : String)
    (b1 b2 : Bool) (mx : Nat) (wc : List WhereClause) (x y : String)
    (rs2 : SQLiteRecordSet)
    (hm : e.minio = Except.ok (bucket, id)) (hid : id ≠ "")
    (ho : e.openRes = Except.ok db)
    (ht : e.requestedTable ≠ "")
    (hmem : e.requestedTable ∈ db.tables.map Table.name)
    (hlook : lookupTable db e.requestedTable = some tb)
    (hread : ReadSQLiteDB db e.requestedTable (tableViewMaxRows e) = Except.ok rs)
    (hrc : rs.RowCount > 0)
    (hcols : ReadSQLiteDBCols dbv tblv b1 b2 mx wc x y = Except.ok rs2) :
    tableViewHandler e =
      (TVOut.body (jsonOfRecordSet { rs with TotalRows := tb.rows.length }), 1) ∧
    rs2.TotalRows = 0 :=
  ⟨tableViewHandler_success e bucket id db tb rs hm hid ho ht hmem hlook hread hrc,
    (ReadSQLiteDBCols_shape dbv tblv b1 b2 mx wc x y rs2 hcols).2⟩

/-- Witness for C4 amended: the logged-in requester with a 3-row preference
receives 3 of the 5 rows, with TotalRows attached as 5; the projection read
of the same table leaves TotalRows at 0. -/
theorem c4_total_rows_amended_witness :
    tableViewHandler c7Env =
      (TVOut.body (jsonOfRecordSet
        { Tablename := "t", ColNames := ["a", "b"], RowCount := 3, TotalRows := tblFive.rows.length,
          Records := [["1", "x"], ["2", "y"], ["3", "z"]] }), 1) ∧
    c4rs.TotalRows = 0 :=
  c4_total_rows_amended c7Env "bkt" "obj1" dbFive tblFive
    { Tablename := "t", ColNames := ["a", "b"], RowCount := 3, TotalRows := 0,
      Records := [["1", "x"], ["2", "y"], ["3", "z"]] }
    dbFive "t" true true 2500 [] "a" "b" c4rs
    rfl (by decide) rfl (by decide) (by decide) rfl rfl (by decide) rfl

/-- C5: the read handle opened by tableViewHandler (part_000 line 720) is not
released on any exit path; here a fully successful request terminates with
the acquired handle still unreleased (the second component counts handles
acquired and never closed), contrary to the claim and to spec sections 4.3
and 5.  The download handler (lines 330-340) does defer a close; the table
query path has no Close call at all. -/
theorem c5_handle_leak :
    tableViewHandler c5Env =
      (TVOut.body (jsonOfRecordSet
        { Tablename := "t", ColNames := ["a", "b"], RowCount := 5, TotalRows := 5,
          Records := [["1", "x"], ["2", "y"], ["3", "z"], ["4", "w"], ["5", "v"]] }), 1) :=
  rfl

/-- C6 counterexample: with an empty wherecol field, a nonempty value and a
whitelisted operator, visData (part_000 lines 1038-1072) constructs a
WhereClause whose column is the empty string, a string that never went
through and does not pass the identifier validator; the claim that every
constructed filter clause carries a validated column is false as stated. -/
theorem c6_unvalidated_column_counterexample :
    visDataWhereParts "" "=" "abc" =
      some ("", "=", "abc", [{ Column := "", Typ := "=", Value := "abc" }]) ∧
    ValidatePGTable "" = false :=
  ⟨rfl, rfl⟩

/-- C6 amended: every clause constructed by the WHERE assembly of visData
carries an operator from the whitelist (any other nonempty operator aborts
before construction) and, whenever its column is nonempty, a column that
passed the identifier validator; an empty wherecol field yields a clause
with an empty, unvalidated column.  The filter value is carried verbatim
into the bind list of the query construction: the query text is independent
of the value and the value appears only among the bound parameters. -/
theorem c6_filter_validated_amended (rc rt rv wCol wType wVal : String)
    (cs : List WhereClause)
    (h : visDataWhereParts rc rt rv = some (wCol, wType, wVal, cs)) :
    (∀ c ∈ cs, c.Typ ∈ whereOps ∧ (c.Column ≠ "" → ValidatePGTable c.Column = true) ∧
      c.Value = rv) ∧
    ∀ xCol yCol tbl : String,
      (buildVisQuery xCol yCol tbl cs).1 =
        (buildVisQuery xCol yCol tbl (cs.map fun c => ⟨c.Column, c.Typ, ""⟩)).1 ∧
      (buildVisQuery xCol yCol tbl cs).2 = cs.map WhereClause.Value := by
  refine ⟨visDataWhereParts_clauses rc rt rv wCol wType wVal cs h, ?_⟩
  intro xCol yCol tbl
  constructor
  · simp only [buildVisQuery, whereText_value_free]
  · rfl

/-- Witness for C6 amended at a concrete validated clause. -/
theorem c6_filter_validated_amended_witness :
    (("=" : String) ∈ whereOps ∧ ValidatePGTable "a" = true ∧
      ({ Column := "a", Typ := "=", Value := "v" } : WhereClause).Value = "v") ∧
    (buildVisQuery "a" "b" "t" [{ Column := "a", Typ := "=", Value := "v" }]).1 =
      (buildVisQuery "a" "b" "t"
        (([{ Column := "a", Typ := "=", Value := "v" }] : List WhereClause).map fun c =>
          ⟨c.Column, c.Typ, ""⟩)).1 ∧
    (buildVisQuery "a" "b" "t" [{ Column := "a", Typ := "=", Value := "v" }]).2 =
      [{ Column := "a", Typ := "=", Value := "v" }].map WhereClause.Value := by
  have h := c6_filter_validated_amended "a" "=" "v" "a" "=" "v"
    [{ Column := "a", Typ := "=", Value := "v" }] rfl
  have h1 := h.1 { Column := "a", Typ := "=", Value := "v" } (by simp)
  exact ⟨⟨h1.1, h1.2.1 (by decide), h1.2.2⟩, (h.2 "a" "b" "t").1, (h.2 "a" "b" "t").2⟩

/-- C7: the row cap of the full-dump read issued by tableViewHandler
(part_000 lines 709-717 select the cap, line 755 applies it): the number of
returned data rows is at most 10 for an anonymous requester and at most the
stored per-user maximum-rows preference for a logged-in requester. -/
theorem c7_row_cap (e : TVEnv) (db : SQLiteDB) (t : String) (rs : SQLiteRecordSet)
    (_hdb : e.openRes = Except.ok db)
    (h : ReadSQLiteDB db t (tableViewMaxRows e) = Except.ok rs) :
    rs.RowCount ≤ if e.loggedInUser = "" then 10 else e.prefMaxRows e.loggedInUser := by
  have hle := ReadSQLiteDB_rowCount_le db t (tableViewMaxRows e) rs h
  unfold tableViewMaxRows at hle
  by_cases hl : e.loggedInUser = "" <;> simp [hl] at hle ⊢ <;> exact hle

/-- Witness for C7: the logged-in requester with a stored preference of 3
receives at most 3 rows from the five-row table. -/
theorem c7_row_cap_witness :
    ({ Tablename := "t", ColNames := ["a", "b"], RowCount := 3, TotalRows := 0,
       Records := [["1", "x"], ["2", "y"], ["3", "z"]] } : SQLiteRecordSet).RowCount ≤
      if c7Env.loggedInUser = "" then 10 else c7Env.prefMaxRows c7Env.loggedInUser :=
  c7_row_cap c7Env dbFive "t"
    { Tablename := "t", ColNames := ["a", "b"], RowCount := 3, TotalRows := 0,
      Records := [["1", "x"], ["2", "y"], ["3", "z"]] } rfl rfl

/-- C10 counterexample: a two-column visualisation request whose nonempty
operator lies outside the whitelist, together with an empty value, does not
execute an unfiltered query and does not report success: visData returns at
the operator switch (part_000 lines 1049-1058) with an empty logged response,
so the claim as stated fails for such operators. -/
theorem c10_dropped_filter_counterexample :
    (visData c10BadEnv).1 = VisOut.logOnly "Validation failed on WHERE clause" ∧
    c10BadEnv.reqWType ≠ "" ∧ c10BadEnv.reqWVal = "" :=
  ⟨rfl, by decide, rfl⟩

/-- C10 amended: a two-column visualisation request carrying a nonempty
filter value with an empty operator, or an empty value with an operator from
the whitelist, constructs no filter clause at all (part_000 lines 1064-1072):
the query runs unfiltered with the 2500-row cap and the response body is the
success body, identical to the body of the same request with no filter
fields, with no indication that the filter was dropped.  A nonempty operator
outside the whitelist instead aborts the request before any query. -/
theorem c10_filter_dropped_amended (ev : VisEnv) (dbv : SQLiteDB)
    (rs : SQLiteRecordSet)
    (hcase : (ev.reqWVal ≠ "" ∧ ev.reqWType = "") ∨
      (ev.reqWType ∈ whereOps ∧ ev.reqWVal = ""))
    (hx : ev.reqXCol ≠ "") (hy : ev.reqYCol ≠ "")
    (hvx : ValidatePGTable ev.reqXCol = true) (hvy : ValidatePGTable ev.reqYCol = true)
    (hwc : ev.reqWCol = "" ∨ ValidatePGTable ev.reqWCol = true)
    (hacc : ev.accessCheck = Except.ok ())
    (hcache : ∀ k, ev.cache k = none)
    (hov : ev.openRes = Except.ok dbv) (hnev : dbv.tables ≠ [])
    (hread : ReadSQLiteDBCols dbv ev.requestedTable true true 2500 [] ev.reqXCol
      ev.reqYCol = Except.ok rs) :
    (visData ev).1 = VisOut.body (jsonOfRecordSet rs) ∧
    rs.RowCount ≤ 2500 ∧
    (visData ev).1 = (visData { ev with reqWType := "", reqWVal := "" }).1 := by
  have hxv : (if ev.reqXCol ≠ "" then
      (if ValidatePGTable ev.reqXCol then some ev.reqXCol else none)
    else some "") = some ev.reqXCol := by
    simp [hx, hvx]
  have hyv : (if ev.reqYCol ≠ "" then
      (if ValidatePGTable ev.reqYCol then some ev.reqYCol else none)
    else some "") = some ev.reqYCol := by
    simp [hy, hvy]
  have hwp : visDataWhereParts ev.reqWCol ev.reqWType ev.reqWVal =
      some (ev.reqWCol, ev.reqWType, "", []) := by
    rcases hcase with ⟨_, h2⟩ | ⟨h1, h2⟩
    · exact visDataWhereParts_noclause ev.reqWCol ev.reqWType ev.reqWVal hwc
        (Or.inl h2) (Or.inr h2)
    · exact visDataWhereParts_noclause ev.reqWCol ev.reqWType ev.reqWVal hwc
        (Or.inr h1) (Or.inl h2)
  have h1 := visData_read ev dbv ev.reqXCol ev.reqYCol ev.reqWCol ev.reqWType ""
    [] hxv hyv hwp hacc hcache hov hnev
  rw [h1, if_pos ⟨hx, hy⟩, hread]
  refine ⟨rfl, (ReadSQLiteDBCols_shape dbv ev.requestedTable true true 2500 []
    ev.reqXCol ev.reqYCol rs hread).1, ?_⟩
  have hwp2 : visDataWhereParts ev.reqWCol "" "" = some (ev.reqWCol, "", "", []) :=
    visDataWhereParts_noclause ev.reqWCol "" "" hwc (Or.inl rfl) (Or.inl rfl)
  have h2 := visData_read { ev with reqWType := "", reqWVal := "" } dbv ev.reqXCol
    ev.reqYCol ev.reqWCol "" "" [] hxv hyv hwp2 hacc hcache hov hnev
  rw [h2, if_pos ⟨hx, hy⟩, hread]

/-- Witness for C10 amended: the request carrying the value needle with an
empty operator answers with the unfiltered five-row projection. -/
theorem c10_filter_dropped_amended_witness :
    (visData c10Env).1 = VisOut.body (jsonOfRecordSet c4rs) ∧
    c4rs.RowCount ≤ 2500 ∧
    (visData c10Env).1 = (visData { c10Env with reqWType := "", reqWVal := "" }).1 :=
  c10_filter_dropped_amended c10Env dbFive c4rs
    (Or.inl ⟨by decide, rfl⟩) (by decide) (by decide) rfl rfl (Or.inr rfl)
    rfl (fun _ => rfl) rfl (by decide) rfl
